import Mathlib

/-!
Shallow embedding of `dmlib/zpanel.py` (Zernike-mode control window for a
deformable mirror) and proofs about its handlers.

Modelling conventions:
* Python floats are embedded as exact rationals (`Rat`); `numpy` arrays of
  coefficients as `List Rat`.
* JSON/Python dictionaries are embedded as partial maps `String → Option PyVal`.
* Qt widgets are not modelled; a handler is embedded as the pure function from
  the state it reads to the state and effects it produces.
* External collaborators (`RZern` from the `zernike` package, the DM driver
  behind `ZernikeControl`) are either universally quantified function
  parameters or explicitly spec-modelled effect recorders.
-/

namespace Dmlib

/-- A Python/JSON value as it appears in the zpanel settings dictionaries.
Dictionaries are embedded as partial maps from string keys. -/
inductive PyVal where
  | int : Int → PyVal
  | rat : Rat → PyVal
  | str : String → PyVal
  | bool : Bool → PyVal
  | list : List PyVal → PyVal
  | dict : (String → Option PyVal) → PyVal

/-- A Python dictionary with string keys. -/
def Dict : Type := String → Option PyVal

/-- The empty dictionary. -/
def dictEmpty : Dict := fun _ => none

/-- Lookup a key. -/
def dictGet (d : Dict) (k : String) : Option PyVal := d k

/-- `d[k] = v`. -/
def dictSet (d : Dict) (k : String) (v : PyVal) : Dict :=
  fun q => if q = k then some v else d q

/-- Python dict union `\x7b**lo, **hi\x7d`: keys of `hi` win. -/
def dictMerge (lo hi : Dict) : Dict :=
  fun q => match hi q with
    | some v => some v
    | none => lo q

/-- Python `int()` applied to a real number: truncation toward zero. -/
def pytrunc (q : Rat) : Int := if 0 ≤ q then Int.floor q else Int.ceil q

/-- `fto100mul = 100` (module-level constant of zpanel.py). -/
def fto100mul : Int := 100

/-- `fto100(f, amp)` of zpanel.py: the slider position of coefficient `f`
when the amplitude text box reads `maxrad`:
`int((f + maxrad)/(2*maxrad)*fto100mul)`. -/
def fto100 (f maxrad : Rat) : Int :=
  pytrunc ((f + maxrad) / (2 * maxrad) * (fto100mul : Rat))

/-- The map applied by the slider handler (`make_hand_slider`) to a slider
position `t`: `t/fto100mul*(2*maxrad) - maxrad`, the value it pushes into the
spinbox. -/
def slider_to_coeff (t maxrad : Rat) : Rat :=
  t / (fto100mul : Rat) * (2 * maxrad) - maxrad

/-- Minimum of a list of rationals (`numpy .min()`); junk value 0 on the
empty list, on which numpy raises instead. -/
def listMin : List Rat → Rat
  | [] => 0
  | a :: t => t.foldl min a

/-- Maximum of a list of rationals (`numpy .max()`); junk value 0 on the
empty list, on which numpy raises instead. -/
def listMax : List Rat → Rat
  | [] => 0
  | a :: t => t.foldl max a

/-- The finite entries of the evaluated phase grid: `phi[np.isfinite(phi)]`.
A grid point outside the unit pupil, where `RZern.eval_grid` yields NaN, is
embedded as `none`; a finite value as `some`. -/
def finiteEntries (phi : List (Option Rat)) : List Rat := phi.filterMap id

/-- What one call of `ZernikePanel.update_gui` displays. -/
structure GuiOut where
  phi : List (Option Rat)
  statusMin : Rat
  statusMax : Rat
  statusPV : Rat
  climLo : Rat
  climHi : Rat
  callbackArg : Option (List Rat)

/-- `ZernikePanel.update_gui(run_callback)`.  The Zernike evaluation
`self.rzern.matrix(self.rzern.eval_grid(z))` is performed by the external
`RZern` collaborator, embedded as the function parameter `evalGrid` (this file
computes no Zernike basis of its own); `mul` is `self.mul`; `hasCallback`
tells whether `self.callback` is installed.  The rendered status text and the
matplotlib draw call are represented by the returned numeric fields. -/
def update_gui (evalGrid : List Rat → List (Option Rat)) (mul : Rat)
    (hasCallback runCallback : Bool) (z : List Rat) : GuiOut :=
  let phi := (evalGrid z).map (Option.map (fun v => mul * v))
  let inner := finiteEntries phi
  let min1 := listMin inner
  let max1 := listMax inner
  { phi := phi
    statusMin := min1
    statusMax := max1
    statusPV := max1 - min1
    climLo := min1
    climHi := max1
    callbackArg := if hasCallback && runCallback then some z else none }

/-- `sum of squares` of the coefficient vector. -/
def sumSq (z : List Rat) : Rat := (z.map (fun a => a * a)).sum

/-- The square of a coefficient, as a real number. -/
def sqR (a : Rat) : Real := ((a : Real)) ^ 2

/-- `numpy.linalg.norm(z)`: the square root of the sum of squared entries. -/
noncomputable def np_norm (z : List Rat) : Real :=
  Real.sqrt ((z.map sqR).sum)

/-- The RMS figure printed by `update_gui`: `rms = self.mul * norm(self.z)`. -/
noncomputable def update_gui_rms (mul : Rat) (z : List Rat) : Real :=
  (mul : Real) * np_norm z

/-- The Euclidean norm of the coefficient vector, written as the spec reads
it: the square root of the sum over all indices of the squared coefficient. -/
noncomputable def euclideanNorm (z : List Rat) : Real :=
  Real.sqrt (∑ i : Fin z.length, ((z.get i : Real)) ^ 2)

/-- `make_hand_spinbox(slider, ind, amp)` of `ZernikePanel.__init__`: the
handler run when the spinbox of row `ind` is edited to value `r`.  It moves
the slider to `fto100(r, amp)` (signals blocked), assigns `self.z[ind] = r`
and calls `self.update_gui()` (so with `run_callback = True`).  Returns the
new slider position, the new coefficient vector and the `update_gui`
output. -/
def make_hand_spinbox (evalGrid : List Rat → List (Option Rat)) (mul : Rat)
    (hasCallback : Bool) (ind : Nat) (maxrad : Rat) (r : Rat) (z : List Rat) :
    Int × List Rat × GuiOut :=
  let sliderVal := fto100 r maxrad
  let z2 := z.set ind r
  (sliderVal, z2, update_gui evalGrid mul hasCallback true z2)

/-- The observable state of the `ZernikeControl` collaborator: the sequence
of actuator commands pushed to the DM driver so far. -/
structure ControlState where
  writes : List (List Rat)

/-- Modelled from the spec: `ZernikeControl.write` lives in
`dmlib/control.py`, which is part of this repository but not under the given
sources; per the spec it converts the Zernike coefficient vector into an
actuator command and pushes it to the DM driver.  We record the pushed
coefficient vector. -/
def ZernikeControl.write (c : ControlState) (z : List Rat) : ControlState :=
  { writes := c.writes ++ [z] }

/-- The `ZernikeWindow` callback built by `make_write_fun`: it calls
`control.write(z)`.  (The further statements of `make_write_fun` update the
DM status label and the actuator plots through the external `DMPlot`
collaborator and Qt; they touch no state modelled here.) -/
def write_fun (c : ControlState) (z : List Rat) : ControlState :=
  ZernikeControl.write c z

/-- One complete spinbox edit in a `ZernikeWindow`, where the panel callback
is `write_fun`: run `make_hand_spinbox`, then feed the callback argument that
`update_gui` produced (if any) to `write_fun`.  Returns the new coefficient
vector and the new control state. -/
def spinbox_edit (evalGrid : List Rat → List (Option Rat)) (mul : Rat)
    (ind : Nat) (maxrad : Rat) (r : Rat) (z : List Rat) (c : ControlState) :
    List Rat × ControlState :=
  let res := make_hand_spinbox evalGrid mul true ind maxrad r z
  match res.2.2.callbackArg with
  | some zz => (res.2.1, write_fun c zz)
  | none => (res.2.1, c)

/-- A Zernike row displayed by the panel: the model of the tuple
`(lab, slider, spinbox, hand_slider, hand_spinbox, amp, hand_amp, lbn,
hand_lab)` appended by `update_zernike_rows` (widget handles carry no state
beyond what is recorded here; the handler closures are recreated from the
index). -/
structure Row where
  index : Nat
  labelN : Int
  labelM : Int
  name : String
  maxamp : Rat
  sliderVal : Int
  spinboxVal : Rat

/-- The state of a `ZernikePanel`. -/
structure PanelState where
  z : List Rat
  nmodes : Nat
  settings : Dict
  rows : List Row

/-- `ZernikePanel.save_settings(merge)`: `d = \x7b**merge, **self.settings\x7d`,
then `d['z'] = self.z.tolist()` and `d['shown_modes'] = len(self.zernike_rows)`. -/
def ZernikePanel.save_settings (p : PanelState) (merge : Dict) : Dict :=
  dictSet
    (dictSet (dictMerge merge p.settings) "z" (PyVal.list (p.z.map PyVal.rat)))
    "shown_modes" (PyVal.int ((p.rows.length : Int)))

/-- The state of a `ZernikeWindow` that the close/save handlers read. -/
structure WindowState where
  can_close : Bool
  settings : Dict
  zpanel : PanelState
  flat_on : Int

/-- The outside world the window touches: files written as parsed JSON
values, and whether `app.quit()` has been called. -/
structure World where
  files : String → Option PyVal
  appQuit : Bool

/-- `ZernikeWindow.save_settings(merge)`: stores the panel settings under
`'ZernikePanel'` and `control.flat_on` under `'flat_on'` into
`self.settings`, then returns `\x7b**merge, **self.settings\x7d` together with the
mutated window state. -/
def ZernikeWindow.save_settings (w : WindowState) (merge : Dict) :
    WindowState × Dict :=
  let s2 :=
    dictSet
      (dictSet w.settings "ZernikePanel"
        (PyVal.dict (ZernikePanel.save_settings w.zpanel dictEmpty)))
      "flat_on" (PyVal.int w.flat_on)
  ({ w with settings := s2 }, dictMerge merge s2)

/-- `path.join(Path.home(), '.zpanel.json')`. -/
def homeSettingsPath (home : String) : String := home ++ "/.zpanel.json"

/-- The outcome of `ZernikeWindow.closeEvent`. -/
structure CloseResult where
  window : WindowState
  world : World
  ignored : Bool

/-- `ZernikeWindow.closeEvent(event)`: when `can_close`, dump
`self.save_settings()` as JSON to `~/.zpanel.json` and quit the application;
otherwise `event.ignore()` and leave everything unchanged. -/
def ZernikeWindow.closeEvent (home : String) (w : WindowState) (world : World) :
    CloseResult :=
  if w.can_close then
    let p := ZernikeWindow.save_settings w dictEmpty
    { window := p.1
      world :=
        { files := fun q =>
            if q = homeSettingsPath home then some (PyVal.dict p.2)
            else world.files q
          appQuit := true }
      ignored := false }
  else
    { window := w, world := world, ignored := true }

/-- The state touched by the `load calibration` / `load settings` button
handler `f3` of `ZernikeWindow.add_lower`. -/
structure F3State where
  winEnabled : Bool
  winOpen : Bool
  dmOpen : Bool
  spawned : List (List String)

/-- The closure `f3(name, glob, param)` of `ZernikeWindow.add_lower`, run on
a button click; `dialog` is the file name the user picked, or `none` on
cancel.  It first disables the window; on cancel it re-enables it and
returns; on a chosen file it closes the window, closes the DM, and spawns
`[sys.executable, *sys.argv, param, fileName]`. -/
def add_lower_f3 (pyexe : String) (argv : List String) (param : String)
    (dialog : Option String) (s : F3State) : F3State :=
  let s1 : F3State := { s with winEnabled := false }
  match dialog with
  | none => { s1 with winEnabled := true }
  | some fileName =>
      { s1 with
        winOpen := false
        dmOpen := false
        spawned := s1.spawned ++ [pyexe :: (argv ++ [param, fileName])] }

/-- The `load calibration` button: `f3('Select a calibration file', ...,
'--calibration')`. -/
def bcalib_click (pyexe : String) (argv : List String) (dialog : Option String)
    (s : F3State) : F3State :=
  add_lower_f3 pyexe argv "--calibration" dialog s

/-- The `load settings` button: `f3('Select a settings file', ...,
'--settings')`. -/
def bload_click (pyexe : String) (argv : List String) (dialog : Option String)
    (s : F3State) : F3State :=
  add_lower_f3 pyexe argv "--settings" dialog s

/-- The command-line arguments `load_settings` reads. -/
structure Args where
  no_settings : Bool
  settings : Option String
  dm_calibration : Option String

/-- How `load_settings` can exit instead of returning: `quit(str)` shows an
error dialog and exits, the cancelled calibration dialog exits silently. -/
inductive LoadExit where
  | quitMsg : String → LoadExit
  | exitSilent : LoadExit

/-- The result of `WeightedLSCalib.query_calibration`: the calibrated DM name
and transform. -/
structure DmInfo where
  dmName : String
  transform : String

/-- The settings-acquisition branch of `load_settings` (the three-way `if` on
`args.no_settings` / `args.settings`): blank settings, last-run settings from
`~/.zpanel.json` with fallback to blank on any read or parse error, or the
explicit `--settings` file whose parse failure ends in
`quit('cannot load ...')`.  `homeRead` and `argParse` are the outcomes of the
two `json.load` calls. -/
def settings_phase (args : Args) (homeRead : Except Unit Dict)
    (argParse : Except Unit Dict) : Except String Dict :=
  if args.no_settings then Except.ok dictEmpty
  else
    match args.settings with
    | none =>
        match homeRead with
        | Except.ok d => Except.ok d
        | Except.error _ => Except.ok dictEmpty
    | some nm =>
        match argParse with
        | Except.ok d => Except.ok d
        | Except.error _ => Except.error ("cannot load " ++ nm)

/-- `load_settings(app, args)`: the settings phase, then the
`args.dm_calibration` override of `settings['calibration']`, then the
calibration-file dialog when no calibration is known (cancel exits), then
`WeightedLSCalib.query_calibration` (failure quits with the error text). -/
def load_settings (args : Args) (homeRead argParse : Except Unit Dict)
    (dialogFile : Option String) (query : PyVal → Except String DmInfo) :
    Except LoadExit (DmInfo × Dict) :=
  match settings_phase args homeRead argParse with
  | Except.error m => Except.error (LoadExit.quitMsg m)
  | Except.ok s0 =>
    let s1 :=
      match args.dm_calibration with
      | some nm => dictSet s0 "calibration" (PyVal.str nm)
      | none => s0
    match dictGet s1 "calibration" with
    | some v =>
        match query v with
        | Except.ok info => Except.ok (info, s1)
        | Except.error e => Except.error (LoadExit.quitMsg e)
    | none =>
        match dialogFile with
        | none => Except.error LoadExit.exitSilent
        | some fn =>
            match query (PyVal.str fn) with
            | Except.ok info =>
                Except.ok (info, dictSet s1 "calibration" (PyVal.str fn))
            | Except.error e => Except.error (LoadExit.quitMsg e)

/-- A settings value convertible to a numpy scalar. -/
def pyNum : PyVal → Option Rat
  | PyVal.int n => some ((n : Rat))
  | PyVal.rat q => some q
  | PyVal.bool b => some (if b then 1 else 0)
  | _ => none

/-- `np.array(...)` over a JSON list of coefficients: `some` list of numbers,
or `none` when the conversion raises. -/
def toRatList : List PyVal → Option (List Rat)
  | [] => some []
  | v :: t =>
      match pyNum v, toRatList t with
      | some q, some qs => some (q :: qs)
      | _, _ => none

/-- The construction of `self.z` in `ZernikePanel.__init__`:
`self.z = np.zeros((self.rzern.nk,))`, then, when `'z'` is among the
settings, `self.z[:min1] = np.array(self.settings['z'])[:min1]` with
`min1 = min(self.z.size, len(self.settings['z']))`, any exception being
swallowed. -/
def init_z (nk : Nat) (settings : Dict) : List Rat :=
  let z0 := List.replicate nk (0 : Rat)
  match dictGet settings "z" with
  | some (PyVal.list l) =>
      match toRatList l with
      | some zs =>
          let m := min nk zs.length
          zs.take m ++ z0.drop m
      | none => z0
  | some _ => z0
  | none => z0

/-- `reset_fun` of `ZernikePanel.__init__`: `self.z *= 0.` (in place, so the
length is untouched). -/
def reset_z (z : List Rat) : List Rat := z.map (fun a => a * 0)

/-- `default_zernike_name(i, n, m)` of `ZernikePanel.__init__`. -/
def default_zernike_name (i n m : Int) : String :=
  if i = 1 then "piston"
  else if i = 2 then "tip"
  else if i = 3 then "tilt"
  else if i = 4 then "defocus"
  else if m = 0 then "spherical"
  else if m.natAbs = 1 then "coma"
  else if m.natAbs = 2 then "astigmatism"
  else if m.natAbs = 3 then "trefoil"
  else if m.natAbs = 4 then "quadrafoil"
  else if m.natAbs = 5 then "pentafoil"
  else ""

/-- The label of row `i`: `self.settings['zernike_labels'][str(i)]` when
present, else the default name.  (The write-back of the freshly computed
default into the settings dictionary only affects labels, not the properties
proved here.) -/
def row_label (settings : Dict) (i : Nat) (n m : Int) : String :=
  match dictGet settings "zernike_labels" with
  | some (PyVal.dict dd) =>
      match dd (toString i) with
      | some (PyVal.str s) => s
      | _ => default_zernike_name ((i : Int) + 1) n m
  | _ => default_zernike_name ((i : Int) + 1) n m

/-- One iteration of the growing loop of `update_zernike_rows`: the row
appended for index `i`, with `maxamp = max(8., self.z[i])`, the slider at
`fto100(self.z[i], amp)` and the spinbox at `self.z[i]`. -/
def make_row (z : List Rat) (ntab mtab : List Int) (settings : Dict) (i : Nat) :
    Row :=
  let n := ntab.getD i 0
  let m := mtab.getD i 0
  let zi := z.getD i 0
  let maxamp := max 8 zi
  { index := i
    labelN := n
    labelM := m
    name := row_label settings i n m
    maxamp := maxamp
    sliderVal := fto100 zi maxamp
    spinboxVal := zi }

/-- `update_zernike_rows` of `ZernikePanel.__init__`: grow the displayed row
list to `self.nmodes` by appending consecutive rows, or shrink it by popping
from the end, leaving it untouched when the length already matches. -/
def update_zernike_rows (z : List Rat) (ntab mtab : List Int) (settings : Dict)
    (nmodes : Nat) (rows : List Row) : List Row :=
  if rows.length < nmodes then
    rows ++ (List.range (nmodes - rows.length)).map
      (fun j => make_row z ntab mtab settings (rows.length + j))
  else if nmodes < rows.length then
    rows.take nmodes
  else rows

/-- The state read and written by `change_nmodes`. -/
structure LezmState where
  nmodes : Nat
  fieldText : String
  rows : List Row
  z : List Rat

/-- `change_nmodes` of `ZernikePanel.__init__`: `ival = int(lezm.text())`
(embedded as the parse outcome `parsed`); on a parse failure or a failed
`assert 0 < ival ≤ rzern.nk` the field text is reset to the current
`nmodes` and nothing else happens; when `ival` equals the current `nmodes`
nothing happens at all; otherwise `nmodes` is set, the rows are updated,
`update_gui` runs (it does not touch `z`) and the text is normalised. -/
def change_nmodes (nk : Nat) (ntab mtab : List Int) (settings : Dict)
    (parsed : Option Int) (st : LezmState) : LezmState :=
  match parsed with
  | none => { st with fieldText := toString st.nmodes }
  | some ival =>
      if ival ≤ 0 ∨ (nk : Int) < ival then
        { st with fieldText := toString st.nmodes }
      else if ival = ((st.nmodes : Int)) then st
      else
        { st with
          nmodes := ival.toNat
          rows := update_zernike_rows st.z ntab mtab settings ival.toNat st.rows
          fieldText := toString ival.toNat }

/-- The class-default `'shown_modes': 21` of `ZernikePanel.settings`. -/
def shown_modes_default : Int := 21

/-- `self.settings['shown_modes']` after the constructor merged the class
defaults with the provided settings (an integer in every settings file this
program writes). -/
def get_shown_modes (settings : Dict) : Int :=
  match dictGet settings "shown_modes" with
  | some (PyVal.int n) => n
  | _ => shown_modes_default

/-- `self.nmodes = min((self.settings['shown_modes'], self.rzern.nk))` of
`ZernikePanel.__init__`. -/
def init_nmodes (settings : Dict) (nk : Nat) : Int :=
  min (get_shown_modes settings) ((nk : Int))

/-- The display behaviour claimed for `update_gui`: the shown wavefront is
`mul` times the externally evaluated grid, the colour limits are the true
minimum and maximum over the finite entries, the status line shows that
minimum, that maximum, their difference as PV, and `mul` times the Euclidean
norm of `z` as RMS. -/
def update_gui_display_ok (evalGrid : List Rat → List (Option Rat)) (mul : Rat)
    (hasCb runCb : Bool) (z : List Rat) : Prop :=
  let out := update_gui evalGrid mul hasCb runCb z
  let inner := finiteEntries out.phi
  out.phi = (evalGrid z).map (Option.map (fun v => mul * v)) ∧
  out.climLo ∈ inner ∧ (∀ x ∈ inner, out.climLo ≤ x) ∧
  out.climHi ∈ inner ∧ (∀ x ∈ inner, x ≤ out.climHi) ∧
  out.statusMin = out.climLo ∧ out.statusMax = out.climHi ∧
  out.statusPV = out.climHi - out.climLo ∧
  update_gui_rms mul z = (mul : Real) * euclideanNorm z

-- ### Helper lemmas and claim theorems ###

theorem dictGet_dictSet_same (d : Dict) (k : String) (v : PyVal) :
    dictGet (dictSet d k v) k = some v := by
  simp [dictGet, dictSet]

theorem dictGet_dictSet_other (d : Dict) (k q : String) (v : PyVal) (h : q ≠ k) :
    dictGet (dictSet d k v) q = dictGet d q := by
  simp [dictGet, dictSet, h]

theorem dictGet_dictMerge (lo hi : Dict) (q : String) :
    dictGet (dictMerge lo hi) q =
      match dictGet hi q with
      | some v => some v
      | none => dictGet lo q := rfl

theorem foldl_min_le_init (t : List Rat) (a : Rat) : t.foldl min a ≤ a := by
  induction t generalizing a with
  | nil => exact le_refl a
  | cons b t ih => exact le_trans (ih (min a b)) (min_le_left a b)

theorem foldl_min_le_mem (t : List Rat) (a x : Rat) (hx : x ∈ t) :
    t.foldl min a ≤ x := by
  induction t generalizing a with
  | nil => cases hx
  | cons b t ih =>
    rcases List.mem_cons.mp hx with h | h
    · subst h
      exact le_trans (foldl_min_le_init t (min a x)) (min_le_right a x)
    · exact ih (min a b) h

theorem foldl_min_mem (t : List Rat) (a : Rat) :
    t.foldl min a = a ∨ t.foldl min a ∈ t := by
  induction t generalizing a with
  | nil => exact Or.inl rfl
  | cons b t ih =>
    rcases ih (min a b) with h | h
    · rcases min_cases a b with ⟨h1, _⟩ | ⟨h1, _⟩
      · exact Or.inl (by rw [List.foldl_cons, h, h1])
      · exact Or.inr (by rw [List.foldl_cons, h, h1]; exact List.mem_cons_self b t)
    · exact Or.inr (List.mem_cons_of_mem b h)

theorem init_le_foldl_max (t : List Rat) (a : Rat) : a ≤ t.foldl max a := by
  induction t generalizing a with
  | nil => exact le_refl a
  | cons b t ih => exact le_trans (le_max_left a b) (ih (max a b))

theorem mem_le_foldl_max (t : List Rat) (a x : Rat) (hx : x ∈ t) :
    x ≤ t.foldl max a := by
  induction t generalizing a with
  | nil => cases hx
  | cons b t ih =>
    rcases List.mem_cons.mp hx with h | h
    · subst h
      exact le_trans (le_max_right a x) (init_le_foldl_max t (max a x))
    · exact ih (max a b) h

theorem foldl_max_mem (t : List Rat) (a : Rat) :
    t.foldl max a = a ∨ t.foldl max a ∈ t := by
  induction t generalizing a with
  | nil => exact Or.inl rfl
  | cons b t ih =>
    rcases ih (max a b) with h | h
    · rcases max_cases a b with ⟨h1, _⟩ | ⟨h1, _⟩
      · exact Or.inl (by rw [List.foldl_cons, h, h1])
      · exact Or.inr (by rw [List.foldl_cons, h, h1]; exact List.mem_cons_self b t)
    · exact Or.inr (List.mem_cons_of_mem b h)

theorem listMin_mem (l : List Rat) (h : l ≠ []) : listMin l ∈ l := by
  cases l with
  | nil => exact absurd rfl h
  | cons a t =>
    rcases foldl_min_mem t a with h1 | h1
    · rw [listMin, h1]; exact List.mem_cons_self a t
    · exact List.mem_cons_of_mem a h1

theorem listMin_le (l : List Rat) (x : Rat) (hx : x ∈ l) : listMin l ≤ x := by
  cases l with
  | nil => cases hx
  | cons a t =>
    rcases List.mem_cons.mp hx with h | h
    · subst h; exact foldl_min_le_init t x
    · exact foldl_min_le_mem t a x h

theorem listMax_mem (l : List Rat) (h : l ≠ []) : listMax l ∈ l := by
  cases l with
  | nil => exact absurd rfl h
  | cons a t =>
    rcases foldl_max_mem t a with h1 | h1
    · rw [listMax, h1]; exact List.mem_cons_self a t
    · exact List.mem_cons_of_mem a h1

theorem le_listMax (l : List Rat) (x : Rat) (hx : x ∈ l) : x ≤ listMax l := by
  cases l with
  | nil => cases hx
  | cons a t =>
    rcases List.mem_cons.mp hx with h | h
    · subst h; exact init_le_foldl_max t x
    · exact mem_le_foldl_max t a x h


theorem np_norm_eq_euclideanNorm (z : List Rat) : np_norm z = euclideanNorm z := by
  rw [np_norm, euclideanNorm, ← Fin.sum_univ_get' z sqR]
  congr 1

/-- Claim C1: editing the spinbox of Zernike row `ind` to value `r` sets the
coefficient `z[ind]` to `r` and runs `update_gui`; whenever a callback is
installed and `run_callback` is true, `update_gui` invokes the callback with
the full current coefficient vector; the `ZernikeWindow` callback `write_fun`
in turn calls `control.write(z)`, so the complete spinbox edit appends an
updated actuator command to the DM driver trace. -/
theorem spinbox_edit_pushes_dm_write (evalGrid : List Rat → List (Option Rat))
    (mul : Rat) (ind : Nat) (maxrad r : Rat) (z : List Rat) (c : ControlState) :
    (make_hand_spinbox evalGrid mul true ind maxrad r z).2.1 = z.set ind r ∧
    (make_hand_spinbox evalGrid mul true ind maxrad r z).2.2 =
      update_gui evalGrid mul true true (z.set ind r) ∧
    (∀ (hasCb runCb : Bool) (z0 : List Rat),
      (update_gui evalGrid mul hasCb runCb z0).callbackArg =
        if hasCb && runCb then some z0 else none) ∧
    (∀ (c0 : ControlState) (z0 : List Rat),
      (write_fun c0 z0).writes = c0.writes ++ [z0]) ∧
    spinbox_edit evalGrid mul ind maxrad r z c =
      (z.set ind r, { writes := c.writes ++ [z.set ind r] }) := by
  exact ⟨rfl, rfl, fun hasCb runCb z0 => rfl, fun c0 z0 => rfl, rfl⟩

/-- Claim C2: the slider and spinbox maps are mutually inverse up to the
slider quantization step: for `maxrad > 0` and `-maxrad ≤ f ≤ maxrad`,
`fto100 f maxrad` is an integer in `[0, 100]`, and the slider handler map
applied to it recovers `f` up to `2*maxrad/100`. -/
theorem fto100_slider_roundtrip (f maxrad : Rat) (hpos : 0 < maxrad)
    (hlo : -maxrad ≤ f) (hhi : f ≤ maxrad) :
    0 ≤ fto100 f maxrad ∧ fto100 f maxrad ≤ 100 ∧
    |slider_to_coeff ((fto100 f maxrad : Int) : Rat) maxrad - f| ≤ 2 * maxrad / 100 := by
  have h2 : (0 : Rat) < 2 * maxrad := by linarith
  set x : Rat := (f + maxrad) / (2 * maxrad) * (fto100mul : Rat) with hxdef
  have hx0 : 0 ≤ x := by
    apply mul_nonneg
    · exact div_nonneg (by linarith) (le_of_lt h2)
    · norm_num [fto100mul]
  have hx100 : x ≤ 100 := by
    have h1 : (f + maxrad) / (2 * maxrad) ≤ 1 := by
      rw [div_le_one h2]; linarith
    have h3 : x ≤ 1 * (fto100mul : Rat) := by
      apply mul_le_mul_of_nonneg_right h1
      norm_num [fto100mul]
    simpa [fto100mul] using h3
  have hft : fto100 f maxrad = Int.floor x := by
    rw [fto100, pytrunc, if_pos hx0]
  have hfl_le : ((Int.floor x : Int) : Rat) ≤ x := Int.floor_le x
  have hfl_gt : x - 1 < ((Int.floor x : Int) : Rat) := Int.sub_one_lt_floor x
  have hxmul : x * (2 * maxrad) = (f + maxrad) * 100 := by
    rw [hxdef]
    field_simp [fto100mul]
  have hm : ((fto100mul : Int) : Rat) = 100 := by norm_num [fto100mul]
  refine ⟨?_, ?_, ?_⟩
  · rw [hft]; exact Int.floor_nonneg.mpr hx0
  · rw [hft]
    have h4 : ((Int.floor x : Int) : Rat) ≤ 100 := le_trans hfl_le hx100
    exact_mod_cast h4
  · rw [hft, slider_to_coeff, hm, abs_le]
    have hA : (x - 1) * (2 * maxrad) < ((Int.floor x : Int) : Rat) * (2 * maxrad) :=
      mul_lt_mul_of_pos_right hfl_gt h2
    have hB : ((Int.floor x : Int) : Rat) * (2 * maxrad) ≤ x * (2 * maxrad) :=
      mul_le_mul_of_nonneg_right hfl_le (le_of_lt h2)
    constructor
    · linarith
    · linarith

/-- Witness for C2 at `f = 1`, `maxrad = 4`. -/
theorem fto100_slider_roundtrip_witness :
    0 ≤ fto100 1 4 ∧ fto100 1 4 ≤ 100 ∧
    |slider_to_coeff ((fto100 1 4 : Int) : Rat) 4 - 1| ≤ 2 * 4 / 100 :=
  fto100_slider_roundtrip 1 4 (by norm_num) (by norm_num) (by norm_num)

/-- Claim C3: `update_gui` displays `phi = mul * rzern.matrix(rzern.eval_grid(z))`
computed by the external `RZern` collaborator (for every `evalGrid`), sets the
colour limits to the minimum and maximum over the finite entries of `phi`,
shows `max - min` as PV and `mul` times the Euclidean norm of `z` as RMS. -/
theorem update_gui_display (evalGrid : List Rat → List (Option Rat)) (mul : Rat)
    (hasCb runCb : Bool) (z : List Rat)
    (hne : finiteEntries ((update_gui evalGrid mul hasCb runCb z).phi) ≠ []) :
    update_gui_display_ok evalGrid mul hasCb runCb z := by
  refine ⟨rfl, listMin_mem _ hne, fun x hx => listMin_le _ x hx,
    listMax_mem _ hne, fun x hx => le_listMax _ x hx, rfl, rfl, rfl, ?_⟩
  rw [update_gui_rms, np_norm_eq_euclideanNorm]

/-- Witness for C3 on a concrete grid with one NaN entry. -/
theorem update_gui_display_witness :
    update_gui_display_ok (fun _ => [some 1, none, some 3]) 2 false false [3, 4] :=
  update_gui_display (fun _ => [some 1, none, some 3]) 2 false false [3, 4] (by decide)

/-- Claim C4: `ZernikePanel.save_settings(merge)` lets every key of
`self.settings` take precedence over the same key of `merge`, stores the
current coefficient vector as a list under `'z'`, and stores the number of
currently displayed rows — not the stored settings value — under
`'shown_modes'`. -/
theorem panel_save_settings_spec (p : PanelState) (merge : Dict) (k : String)
    (h1 : k ≠ "z") (h2 : k ≠ "shown_modes") :
    dictGet (ZernikePanel.save_settings p merge) k =
      (match dictGet p.settings k with
       | some v => some v
       | none => dictGet merge k) ∧
    dictGet (ZernikePanel.save_settings p merge) "z" =
      some (PyVal.list (p.z.map PyVal.rat)) ∧
    dictGet (ZernikePanel.save_settings p merge) "shown_modes" =
      some (PyVal.int ((p.rows.length : Int))) := by
  have hz : ("z" : String) ≠ "shown_modes" := by decide
  refine ⟨?_, ?_, ?_⟩
  · rw [ZernikePanel.save_settings, dictGet_dictSet_other _ _ _ _ h2,
      dictGet_dictSet_other _ _ _ _ h1, dictGet_dictMerge]
  · rw [ZernikePanel.save_settings, dictGet_dictSet_other _ _ _ _ hz,
      dictGet_dictSet_same]
  · rw [ZernikePanel.save_settings, dictGet_dictSet_same]

/-- Witness for C4 at a concrete panel, empty merge and the key
`'wavelength'`. -/
theorem panel_save_settings_spec_witness :
    dictGet
        (ZernikePanel.save_settings
          ({ z := [1, 2], nmodes := 2, settings := dictEmpty, rows := [] } :
            PanelState) dictEmpty) "wavelength" =
      (match
          dictGet
            ({ z := [1, 2], nmodes := 2, settings := dictEmpty, rows := [] } :
              PanelState).settings "wavelength" with
       | some v => some v
       | none => dictGet dictEmpty "wavelength") ∧
    dictGet
        (ZernikePanel.save_settings
          ({ z := [1, 2], nmodes := 2, settings := dictEmpty, rows := [] } :
            PanelState) dictEmpty) "z" =
      some (PyVal.list
        (({ z := [1, 2], nmodes := 2, settings := dictEmpty, rows := [] } :
            PanelState).z.map PyVal.rat)) ∧
    dictGet
        (ZernikePanel.save_settings
          ({ z := [1, 2], nmodes := 2, settings := dictEmpty, rows := [] } :
            PanelState) dictEmpty) "shown_modes" =
      some (PyVal.int
        ((({ z := [1, 2], nmodes := 2, settings := dictEmpty, rows := [] } :
            PanelState).rows.length : Int))) :=
  panel_save_settings_spec
    { z := [1, 2], nmodes := 2, settings := dictEmpty, rows := [] }
    dictEmpty "wavelength" (by decide) (by decide)

/-- Claim C5: when the close event fires with `can_close` true, the window
writes `save_settings()` — a dictionary holding the panel settings under
`'ZernikePanel'` and the current `control.flat_on` under `'flat_on'` — as
JSON to `~/.zpanel.json` and quits the application; with `can_close` false
the event is ignored and all state is unchanged. -/
theorem closeEvent_spec (home : String) (w : WindowState) (world : World) :
    (w.can_close = true →
      (ZernikeWindow.closeEvent home w world).world.appQuit = true ∧
      (ZernikeWindow.closeEvent home w world).ignored = false ∧
      ∃ d : Dict,
        (ZernikeWindow.closeEvent home w world).world.files
            (homeSettingsPath home) = some (PyVal.dict d) ∧
        dictGet d "ZernikePanel" =
          some (PyVal.dict (ZernikePanel.save_settings w.zpanel dictEmpty)) ∧
        dictGet d "flat_on" = some (PyVal.int w.flat_on)) ∧
    (w.can_close = false →
      ZernikeWindow.closeEvent home w world =
        { window := w, world := world, ignored := true }) := by
  have hk : ("ZernikePanel" : String) ≠ "flat_on" := by decide
  constructor
  · intro h
    rw [ZernikeWindow.closeEvent, if_pos (by rw [h])]
    refine ⟨rfl, rfl, (ZernikeWindow.save_settings w dictEmpty).2, ?_, ?_, ?_⟩
    · simp
    · rw [ZernikeWindow.save_settings, dictGet_dictMerge,
        dictGet_dictSet_other _ _ _ _ hk, dictGet_dictSet_same]
    · rw [ZernikeWindow.save_settings, dictGet_dictMerge, dictGet_dictSet_same]
  · intro h
    rw [ZernikeWindow.closeEvent, if_neg (by rw [h]; exact Bool.false_ne_true)]

/-- Witness for C5: a concrete closable window writes its settings and
quits. -/
theorem closeEvent_spec_witness :
    (ZernikeWindow.closeEvent "/home/u"
        ({ can_close := true, settings := dictEmpty,
           zpanel := { z := [1], nmodes := 1, settings := dictEmpty, rows := [] },
           flat_on := 1 } : WindowState)
        ({ files := fun _ => none, appQuit := false } : World)).world.appQuit =
        true ∧
    (ZernikeWindow.closeEvent "/home/u"
        ({ can_close := true, settings := dictEmpty,
           zpanel := { z := [1], nmodes := 1, settings := dictEmpty, rows := [] },
           flat_on := 1 } : WindowState)
        ({ files := fun _ => none, appQuit := false } : World)).ignored =
        false ∧
    ∃ d : Dict,
      (ZernikeWindow.closeEvent "/home/u"
          ({ can_close := true, settings := dictEmpty,
             zpanel := { z := [1], nmodes := 1, settings := dictEmpty, rows := [] },
             flat_on := 1 } : WindowState)
          ({ files := fun _ => none, appQuit := false } : World)).world.files
          (homeSettingsPath "/home/u") = some (PyVal.dict d) ∧
      dictGet d "ZernikePanel" =
        some (PyVal.dict (ZernikePanel.save_settings
          { z := [1], nmodes := 1, settings := dictEmpty, rows := [] }
          dictEmpty)) ∧
      dictGet d "flat_on" = some (PyVal.int 1) :=
  (closeEvent_spec "/home/u"
    { can_close := true, settings := dictEmpty,
      zpanel := { z := [1], nmodes := 1, settings := dictEmpty, rows := [] },
      flat_on := 1 }
    { files := fun _ => none, appQuit := false }).1 rfl

/-- Claim C6: `load_settings` derives blank settings on `--no-settings`;
without an explicit `--settings` file it reads `~/.zpanel.json` and falls
back to blank on any read or parse error; an explicit `--settings` file that
fails to parse makes the whole function exit through the error dialog with
`cannot load <name>` instead of returning a default. -/
theorem load_settings_spec (args : Args) (homeRead argParse : Except Unit Dict)
    (dialogFile : Option String) (query : PyVal → Except String DmInfo) :
    (args.no_settings = true →
      settings_phase args homeRead argParse = Except.ok dictEmpty) ∧
    (args.no_settings = false → args.settings = none →
      settings_phase args homeRead argParse =
        Except.ok
          (match homeRead with
           | Except.ok d => d
           | Except.error _ => dictEmpty)) ∧
    (∀ nm, args.no_settings = false → args.settings = some nm →
      argParse = Except.error () →
      load_settings args homeRead argParse dialogFile query =
        Except.error (LoadExit.quitMsg ("cannot load " ++ nm))) := by
  refine ⟨?_, ?_, ?_⟩
  · intro h
    unfold settings_phase
    rw [if_pos (by rw [h])]
  · intro h1 h2
    unfold settings_phase
    rw [if_neg (by rw [h1]; exact Bool.false_ne_true), h2]
    cases homeRead with
    | ok d => rfl
    | error e => rfl
  · intro nm h1 h2 h3
    unfold load_settings settings_phase
    rw [if_neg (by rw [h1]; exact Bool.false_ne_true), h2, h3]

/-- Witness for C6: a malformed explicit settings file exits with the error
dialog. -/
theorem load_settings_spec_witness :
    load_settings
        ({ no_settings := false, settings := some "bad.json",
           dm_calibration := none } : Args)
        (Except.ok dictEmpty) (Except.error ()) none
        (fun _ => Except.error "no calib") =
      Except.error (LoadExit.quitMsg ("cannot load " ++ "bad.json")) :=
  (load_settings_spec
      { no_settings := false, settings := some "bad.json", dm_calibration := none }
      (Except.ok dictEmpty) (Except.error ()) none
      (fun _ => Except.error "no calib")).2.2 "bad.json" rfl rfl rfl

/-- Claim C7: cancelling the file dialog of the `load calibration` /
`load settings` buttons only re-enables the window — it stays open, the DM
stays open and nothing is spawned; choosing a file closes the window, closes
the DM and relaunches the program with the chosen file appended after the
button parameter (`--calibration` resp. `--settings`). -/
theorem add_lower_load_buttons (pyexe : String) (argv : List String)
    (param : String) (dialog : Option String) (s : F3State) (fn : String) :
    add_lower_f3 pyexe argv param none s =
      { winEnabled := true, winOpen := s.winOpen, dmOpen := s.dmOpen,
        spawned := s.spawned } ∧
    add_lower_f3 pyexe argv param (some fn) s =
      { winEnabled := false, winOpen := false, dmOpen := false,
        spawned := s.spawned ++ [pyexe :: (argv ++ [param, fn])] } ∧
    bcalib_click pyexe argv dialog s = add_lower_f3 pyexe argv "--calibration" dialog s ∧
    bload_click pyexe argv dialog s = add_lower_f3 pyexe argv "--settings" dialog s :=
  ⟨rfl, rfl, rfl, rfl⟩

theorem init_z_length (nk : Nat) (s : Dict) : (init_z nk s).length = nk := by
  unfold init_z
  cases hz : dictGet s "z" with
  | none => simp
  | some v =>
    cases v with
    | list l =>
      dsimp only
      cases hr : toRatList l with
      | none => simp
      | some zs =>
        dsimp only
        simp only [List.length_append, List.length_take, List.length_drop,
          List.length_replicate]
        omega
    | int n => simp
    | rat q => simp
    | str t => simp
    | bool b => simp
    | dict dd => simp

theorem init_z_eq (nk : Nat) (s : Dict) (l : List PyVal) (zs : List Rat)
    (h1 : dictGet s "z" = some (PyVal.list l)) (h2 : toRatList l = some zs) :
    init_z nk s =
      zs.take (min nk zs.length) ++
        (List.replicate nk (0 : Rat)).drop (min nk zs.length) := by
  unfold init_z
  rw [h1]
  dsimp only
  rw [h2]

/-- Claim C8: the coefficient vector always has exactly `rzern.nk` entries —
it is created as `nk` zeros; restoring `'z'` from the settings copies only
the first `min(nk, len(settings['z']))` entries, leaves the rest zero, and a
conversion failure is swallowed leaving all zeros; the reset button and an
index assignment keep the length as well. -/
theorem z_vector_invariants (nk : Nat) (s : Dict) (z : List Rat) (i : Nat)
    (r : Rat) :
    (init_z nk s).length = nk ∧
    (reset_z z).length = z.length ∧
    (z.set i r).length = z.length ∧
    (∀ l zs j, dictGet s "z" = some (PyVal.list l) → toRatList l = some zs →
      j < min nk zs.length → (init_z nk s)[j]? = zs[j]?) ∧
    (∀ l zs j, dictGet s "z" = some (PyVal.list l) → toRatList l = some zs →
      min nk zs.length ≤ j → j < nk → (init_z nk s)[j]? = some 0) ∧
    (∀ l, dictGet s "z" = some (PyVal.list l) → toRatList l = none →
      init_z nk s = List.replicate nk 0) := by
  refine ⟨init_z_length nk s, by simp [reset_z], List.length_set z i r,
    ?_, ?_, ?_⟩
  · intro l zs j h1 h2 hj
    rw [init_z_eq nk s l zs h1 h2]
    rw [List.getElem?_append]
    rw [if_pos (by simp; omega)]
    rw [List.getElem?_take]
    rw [if_pos (by omega)]
  · intro l zs j h1 h2 hj hjn
    rw [init_z_eq nk s l zs h1 h2]
    rw [List.getElem?_append]
    rw [if_neg (by simp; omega)]
    rw [List.getElem?_drop, List.getElem?_replicate]
    rw [if_pos (by simp; omega)]
  · intro l h1 h2
    unfold init_z
    rw [h1]
    dsimp only
    rw [h2]

/-- Witness for C8: `nk = 3` with a one-entry stored `'z'` list gives a
vector of length 3, first entry restored, rest zero. -/
theorem z_vector_invariants_witness :
    (init_z 3 (dictSet dictEmpty "z" (PyVal.list [PyVal.int 5]))).length = 3 ∧
    (init_z 3 (dictSet dictEmpty "z" (PyVal.list [PyVal.int 5])))[0]? =
      [((5 : Int) : Rat)][0]? ∧
    (init_z 3 (dictSet dictEmpty "z" (PyVal.list [PyVal.int 5])))[2]? =
      some 0 :=
  ⟨(z_vector_invariants 3 (dictSet dictEmpty "z" (PyVal.list [PyVal.int 5]))
      [] 0 0).1,
   (z_vector_invariants 3 (dictSet dictEmpty "z" (PyVal.list [PyVal.int 5]))
      [] 0 0).2.2.2.1 [PyVal.int 5] [((5 : Int) : Rat)] 0 rfl rfl (by decide),
   (z_vector_invariants 3 (dictSet dictEmpty "z" (PyVal.list [PyVal.int 5]))
      [] 0 0).2.2.2.2.1 [PyVal.int 5] [((5 : Int) : Rat)] 2 rfl rfl (by decide)
      (by decide)⟩

/-- Claim C9: under `1 ≤ nmodes ≤ rzern.nk`, `update_zernike_rows` always
ends with exactly `nmodes` rows, in the growing branch, the shrinking branch
and the unchanged case alike, so the two `assert len(zernike_rows) == mynk`
statements hold. -/
theorem update_zernike_rows_length (z : List Rat) (ntab mtab : List Int)
    (settings : Dict) (nmodes nk : Nat) (rows : List Row)
    (h1 : 1 ≤ nmodes) (h2 : nmodes ≤ nk) (h3 : z.length = nk) :
    (update_zernike_rows z ntab mtab settings nmodes rows).length = nmodes := by
  rw [update_zernike_rows]
  by_cases hlt : rows.length < nmodes
  · rw [if_pos hlt]
    simp only [List.length_append, List.length_map, List.length_range]
    omega
  · rw [if_neg hlt]
    by_cases hgt : nmodes < rows.length
    · rw [if_pos hgt]
      simp only [List.length_take]
      omega
    · rw [if_neg hgt]
      omega

/-- Witness for C9: growing from no rows to 2 of 2 modes. -/
theorem update_zernike_rows_length_witness :
    (update_zernike_rows [0, 0] [1, 1] [1, -1] dictEmpty 2 []).length = 2 :=
  update_zernike_rows_length [0, 0] [1, 1] [1, -1] dictEmpty 2 2 []
    (by decide) (by decide) (by decide)

/-- Claim C10: editing the `shown modes` field is atomic — a non-integer or
out-of-range entry only resets the field text to the current `nmodes`; a
valid entry equal to the current `nmodes` changes nothing at all; and at
construction `nmodes = min(settings['shown_modes'], rzern.nk)` never exceeds
`rzern.nk`. -/
theorem change_nmodes_spec (nk : Nat) (ntab mtab : List Int) (settings : Dict)
    (parsed : Option Int) (st : LezmState) :
    (parsed = none → change_nmodes nk ntab mtab settings parsed st =
        { st with fieldText := toString st.nmodes }) ∧
    (∀ ival, parsed = some ival → (ival ≤ 0 ∨ (nk : Int) < ival) →
      change_nmodes nk ntab mtab settings parsed st =
        { st with fieldText := toString st.nmodes }) ∧
    (∀ ival, parsed = some ival → 0 < ival → ival ≤ ((nk : Int)) →
      ival = ((st.nmodes : Int)) →
      change_nmodes nk ntab mtab settings parsed st = st) ∧
    init_nmodes settings nk ≤ ((nk : Int)) := by
  refine ⟨?_, ?_, ?_, min_le_right _ _⟩
  · intro h
    rw [h]
    rfl
  · intro ival h hrange
    rw [h]
    unfold change_nmodes
    dsimp only
    rw [if_pos hrange]
  · intro ival h h0 hnk heq
    rw [h]
    unfold change_nmodes
    dsimp only
    rw [if_neg (by push_neg; exact ⟨h0, hnk⟩), if_pos heq]

/-- Witness for C10: entering 5 with only 3 modes available resets the text
and changes nothing else. -/
theorem change_nmodes_spec_witness :
    change_nmodes 3 [] [] dictEmpty (some 5)
        ({ nmodes := 2, fieldText := "2", rows := [], z := [] }) =
      { nmodes := 2, fieldText := toString (2 : Nat), rows := [], z := [] } :=
  (change_nmodes_spec 3 [] [] dictEmpty (some 5)
      { nmodes := 2, fieldText := "2", rows := [], z := [] }).2.1 5 rfl
    (Or.inr (by norm_num))

end Dmlib
